import Mathlib

/-!
# Verification of the sol-agent survival core

A shallow embedding of the survival-tier engine, the tier transition log,
and the heartbeat daemon of the `sol-agent` repository, together with
theorems settling the specification claims about them.

Conventions of the embedding:
* timestamps are integers (milliseconds since the epoch), matching the
  `Date.getTime()` values the source compares;
* the persisted key/value store and the in-memory `Map` of per-task failure
  counters are modelled as association lists over `String` keys;
* external collaborators (the credit-balance client, the cron parser, the
  registered task functions) are parameters of the functions that call them:
  a balance query is an `Except String Int`, the cron library is an oracle
  `String → Int → Option Int` giving the next fire time strictly after a
  date (or `none` when parsing or iteration throws), and a task execution is
  an `Except String TaskResult`;
* the optional `onWakeRequest` callback is taken to be present, and the list
  of reasons it has been invoked with is part of the daemon state.
-/

set_option autoImplicit false

namespace SolAgent

/-- The four survival operating modes (`SurvivalTier` in `dist/types.js`). -/
inductive SurvivalTier where
  | normal
  | low_compute
  | critical
  | dead
deriving DecidableEq, Repr

/-- The tier names as the TypeScript string-union values. -/
def tierName : SurvivalTier → String
  | .normal => "normal"
  | .low_compute => "low_compute"
  | .critical => "critical"
  | .dead => "dead"

/-- The threshold constants of `SURVIVAL_THRESHOLDS` in `dist/types.js`. -/
structure SurvivalThresholds where
  normal : Int
  low_compute : Int
  critical : Int
  dead : Int
deriving Repr

/-- `SURVIVAL_THRESHOLDS` from `dist/types.js` (credits in integer cents). -/
def SURVIVAL_THRESHOLDS : SurvivalThresholds :=
  { normal := 50, low_compute := 10, critical := 10, dead := 0 }

/-- Modelled from the spec: the implementation of `getSurvivalTier`
(`agent-client/credits`) is not in the source tree — only its import in the
heartbeat daemon and the `SURVIVAL_THRESHOLDS` constants of `dist/types.js`
are.  The spec fixes the mapping: credits > 50 → `normal`;
10 < credits ≤ 50 → `low_compute`; 0 < credits ≤ 10 → `critical`;
credits ≤ 0 → `dead`, which agrees with the threshold constants. -/
def getSurvivalTier (creditsCents : Int) : SurvivalTier :=
  if SURVIVAL_THRESHOLDS.normal < creditsCents then .normal
  else if SURVIVAL_THRESHOLDS.low_compute < creditsCents then .low_compute
  else if SURVIVAL_THRESHOLDS.dead < creditsCents then .critical
  else .dead

/-- A recorded tier transition (`ModeTransition` in
`dist/survival/low-compute.d.ts`); the `from`/`to` fields are renamed
`fromTier`/`toTier` because `from` is a Lean keyword. -/
structure ModeTransition where
  fromTier : SurvivalTier
  toTier : SurvivalTier
  timestamp : String
  creditsCents : Int
deriving DecidableEq, Repr

/-- `recordTransition` from `dist/survival/low-compute.d.ts` (the bundled
JavaScript body).  The source reads the JSON-serialized history list from the
`tier_transitions` key, pushes the new transition, and keeps the last 50 via
`history.splice(0, history.length - 50)`; the JSON round-trip through the
store is abstracted away and the function acts on the history list itself. -/
def recordTransition (history : List ModeTransition) (fromTier toTier : SurvivalTier)
    (creditsCents : Int) (timestamp : String) : List ModeTransition :=
  let transition : ModeTransition :=
    { fromTier := fromTier, toTier := toTier, timestamp := timestamp,
      creditsCents := creditsCents }
  let h := history ++ [transition]
  if 50 < h.length then h.drop (h.length - 50) else h

/-! ## Association lists

The persisted key/value store (`db.getKV`/`db.setKV`), the per-task failure
counter `Map`, and the per-entry last-run column are modelled as association
lists: lookup returns the first binding, insertion replaces an existing
binding in place or appends a fresh one, matching `Map.get`/`Map.set` and a
keyed database row. -/

def lookupAL {α : Type} : List (String × α) → String → Option α
  | [], _ => none
  | (k, v) :: t, key => if k = key then some v else lookupAL t key

def insertAL {α : Type} : List (String × α) → String → α → List (String × α)
  | [], key, v => [(key, v)]
  | (k, w) :: t, key, v =>
      if k = key then (key, v) :: t else (k, w) :: insertAL t key v

/-! ## Heartbeat daemon state -/

/-- One scheduled task binding (`HeartbeatEntry` in `types.ts`); `lastRun`
is the stored timestamp in epoch milliseconds, `none` when never run. -/
structure HeartbeatEntry where
  name : String
  schedule : String
  task : String
  enabled : Bool
  lastRun : Option Int
deriving DecidableEq, Repr

/-- What a heartbeat task returns: `{ shouldWake; message? }`. -/
structure TaskResult where
  shouldWake : Bool
  message : Option String
deriving DecidableEq, Repr

/-- The mutable state owned by `createHeartbeatDaemon` together with the
observable parts of its collaborators: the `running` flag, the
consecutive-failure counters, the per-entry last-run column of the database
(`db.updateHeartbeatLastRun`), and the accumulated list of reasons passed to
`onWakeRequest` (in order of invocation). -/
structure DaemonState where
  running : Bool
  consecutiveTickErrors : Nat
  consecutiveTaskErrors : List (String × Nat)
  lastRunMap : List (String × Int)
  wakes : List String
deriving DecidableEq, Repr

/-- `MAX_CONSECUTIVE_TICK_ERRORS` in the daemon source. -/
def MAX_CONSECUTIVE_TICK_ERRORS : Nat := 5

/-- `MAX_CONSECUTIVE_TASK_ERRORS` in the daemon source. -/
def MAX_CONSECUTIVE_TASK_ERRORS : Nat := 3

/-- The keys of the `BUILTIN_TASKS` registry (`heartbeat/tasks`). -/
def BUILTIN_TASK_NAMES : List String :=
  ["heartbeat_ping", "check_credits", "check_usdc_balance", "check_sol_balance",
   "check_social_inbox", "check_for_updates", "health_check"]

/-- The `essentialTasks` allow-list inside `tick`. -/
def essentialTasks : List String :=
  ["heartbeat_ping", "check_credits", "check_usdc_balance", "check_social_inbox"]

/-- The fallback wake reason used when a task asks to wake without a message
(`result.message || ...` — with JavaScript truthiness the empty string also
falls back). -/
def taskWakeFallbackMsg (name : String) : String :=
  "Heartbeat task '" ++ name ++ "' requested wake"

/-- The wake reason fired when a task reaches the consecutive-failure
threshold; it embeds the task name and the failure count. -/
def taskFailureWakeMsg (name : String) (count : Nat) (err : String) : String :=
  "Heartbeat task '" ++ name ++ "' has failed " ++ toString count ++
    " consecutive times: " ++ err

/-- The wake reason fired when the daemon stops itself after repeated
whole-tick failures. -/
def tickFailureWakeMsg (count : Nat) (err : String) : String :=
  "Heartbeat daemon stopped after " ++ toString count ++
    " consecutive tick failures: " ++ err

/-- `isDue` from the daemon: an entry is due when it is enabled, its
schedule string is non-empty, the cron oracle yields a next fire time from
`lastRun` (or from 24 hours before now when never run), and that time is at
or before now.  A throwing parse or iteration (`cronNext _ _ = none`)
yields `false` via the `catch`. -/
def isDue (cronNext : String → Int → Option Int) (now : Int)
    (entry : HeartbeatEntry) : Bool :=
  if !entry.enabled then false
  else if entry.schedule = "" then false
  else
    match cronNext entry.schedule (entry.lastRun.getD (now - 86400000)) with
    | some nextRun => decide (nextRun ≤ now)
    | none => false

/-- `executeTask` from the daemon.  The behaviour of the registered task
functions is the parameter `run` (an unknown task is skipped silently);
`now` is the timestamp written to the entry's last-run column on success.
On success the entry's failure counter resets to 0, the last-run column is
updated, and a requested wake fires; on a throw the counter increments and,
at or past `MAX_CONSECUTIVE_TASK_ERRORS`, a wake fires naming the task and
the count — without touching the last-run column or the `running` flag. -/
def executeTask (run : String → Except String TaskResult) (now : Int)
    (entry : HeartbeatEntry) (s : DaemonState) : DaemonState :=
  if !BUILTIN_TASK_NAMES.contains entry.task then s
  else
    match run entry.task with
    | .ok result =>
        let s1 : DaemonState := { s with
          consecutiveTaskErrors := insertAL s.consecutiveTaskErrors entry.name 0,
          lastRunMap := insertAL s.lastRunMap entry.name now }
        if result.shouldWake then
          { s1 with wakes := s1.wakes ++
              [match result.message with
               | some m => if m = "" then taskWakeFallbackMsg entry.name else m
               | none => taskWakeFallbackMsg entry.name] }
        else s1
    | .error err =>
        let count := (lookupAL s.consecutiveTaskErrors entry.name).getD 0 + 1
        let s1 : DaemonState :=
          { s with consecutiveTaskErrors := insertAL s.consecutiveTaskErrors entry.name count }
        if MAX_CONSECUTIVE_TASK_ERRORS ≤ count then
          { s1 with wakes := s1.wakes ++ [taskFailureWakeMsg entry.name count err] }
        else s1

/-- The credit balance a tick works with: `getCreditsBalance()` wrapped in
`try \x7b ... \x7d catch \x7b\x7d` around a zero-initialized local — a
failure leaves 0. -/
def tickCredits (balance : Except String Int) : Int :=
  match balance with
  | .ok c => c
  | .error _ => 0

/-- The `isLowCompute` local of `tick`. -/
def survivalIsLowCompute (tier : SurvivalTier) : Bool :=
  tier == .low_compute || tier == .critical || tier == .dead

/-- The body of `tick`'s `for` loop over the heartbeat entries: skip a
disabled entry; under low-compute skip any task outside the essential
allow-list; otherwise execute the entry when due. -/
def tickStep (run : String → Except String TaskResult)
    (cronNext : String → Int → Option Int) (now : Int) (isLowCompute : Bool)
    (acc : DaemonState) (entry : HeartbeatEntry) : DaemonState :=
  if !entry.enabled then acc
  else if isLowCompute && !essentialTasks.contains entry.task then acc
  else if isDue cronNext now entry then executeTask run now entry acc
  else acc

/-- `tick` from the daemon: read the entries, query the balance (failure
counts as 0), compute the tier, and walk the entries sequentially with
`tickStep`. -/
def tick (run : String → Except String TaskResult)
    (cronNext : String → Int → Option Int) (now : Int)
    (entries : List HeartbeatEntry) (balance : Except String Int)
    (s : DaemonState) : DaemonState :=
  let creditsCents := tickCredits balance
  let tier := getSurvivalTier creditsCents
  entries.foldl (tickStep run cronNext now (survivalIsLowCompute tier)) s

/-- `stop` from the daemon (the timer handle is not modelled): a no-op when
already stopped, otherwise clears the `running` flag. -/
def stop (s : DaemonState) : DaemonState :=
  if !s.running then s else { s with running := false }

/-- `safeTick` from the daemon.  The tick body is the parameter `tickFn`,
returning the state it reached together with `some` error message when it
threw (mutations made before the throw persist, as they do in the source).
A successful tick resets the whole-tick failure counter; a failing tick
increments it, and at `MAX_CONSECUTIVE_TICK_ERRORS` the daemon stops itself
and fires one wake stating that it stopped. -/
def safeTick (tickFn : DaemonState → DaemonState × Option String)
    (s : DaemonState) : DaemonState :=
  match tickFn s with
  | (s1, none) => { s1 with consecutiveTickErrors := 0 }
  | (s1, some msg) =>
      let c := s1.consecutiveTickErrors + 1
      let s2 : DaemonState := { s1 with consecutiveTickErrors := c }
      if MAX_CONSECUTIVE_TICK_ERRORS ≤ c then
        let s3 := stop s2
        { s3 with wakes := s3.wakes ++ [tickFailureWakeMsg c msg] }
      else s2

/-- `forceRun` from the daemon: look the name up among the stored entries
and execute that single entry, outside any schedule, tier, or enabled
check; do nothing when no entry carries the name. -/
def forceRun (run : String → Except String TaskResult) (now : Int)
    (entries : List HeartbeatEntry) (taskName : String)
    (s : DaemonState) : DaemonState :=
  match entries.find? (fun e => e.name == taskName) with
  | some entry => executeTask run now entry s
  | none => s

/-! ## The `check_credits` built-in task -/

/-- The JSON string written under `last_credit_check` (the braces of the
object literal are written as hex escapes). -/
def creditCheckRecord (credits : Int) (tier : SurvivalTier)
    (timestamp : String) : String :=
  "\x7b\"credits\":" ++ toString credits ++ ",\"tier\":\"" ++ tierName tier ++
    "\",\"timestamp\":\"" ++ timestamp ++ "\"\x7d"

/-- `(credits / 100).toFixed(2)` rendered over integer cents; faithful for
nonnegative balances, which is the only regime the wake message is built
in. -/
def creditsDollarString (credits : Int) : String :=
  toString (credits / 100) ++ "." ++
    (if (credits % 100).natAbs < 10 then "0" else "") ++
    toString (credits % 100).natAbs

/-- The wake message of a tier drop reported by `check_credits`. -/
def creditDropWakeMsg (tier : SurvivalTier) (credits : Int) : String :=
  "Credits dropped to " ++ tierName tier ++ " tier: $" ++
    creditsDollarString credits

/-- The `check_credits` task from `heartbeat/tasks`: recompute the tier from
the freshly queried balance (`credits` here), store a `last_credit_check`
record, read the previously recorded tier from `prev_credit_tier`, store the
new tier there, and request a wake exactly when a previous tier was recorded
(JavaScript truthiness: a stored empty string counts as absent), it differs
from the new tier, and the new tier is `critical` or `dead`. -/
def check_credits (credits : Int) (timestamp : String)
    (kv : List (String × String)) : List (String × String) × TaskResult :=
  let tier := getSurvivalTier credits
  let kv1 := insertAL kv "last_credit_check" (creditCheckRecord credits tier timestamp)
  let prevTier := lookupAL kv1 "prev_credit_tier"
  let kv2 := insertAL kv1 "prev_credit_tier" (tierName tier)
  let wake : Bool :=
    (match prevTier with
     | some p => !(p == "") && !(p == tierName tier)
     | none => false) &&
    (tier == .critical || tier == .dead)
  (kv2,
    if wake then
      { shouldWake := true, message := some (creditDropWakeMsg tier credits) }
    else
      { shouldWake := false, message := none })

/-! ## Concrete collaborators used by witnesses and counterexamples -/

/-- A task-registry behaviour whose every task throws with message `m`. -/
def failRun (m : String) : String → Except String TaskResult :=
  fun _ => Except.error m

/-- A task-registry behaviour whose every task returns `r`. -/
def okRun (r : TaskResult) : String → Except String TaskResult :=
  fun _ => Except.ok r

/-- A tick body that mutates nothing and throws with message `m`. -/
def failingTick (m : String) : DaemonState → DaemonState × Option String :=
  fun st => (st, some m)

/-- The cron library evaluated on the yearly expression `0 0 1 1 *` with any
base date in 2025: the expression parses, and the next fire after the base
is 2026-01-01T00:00:00Z, epoch millisecond 1767225600000 — far more than 24
hours past any mid-2025 base. -/
def yearlyCronNext : String → Int → Option Int :=
  fun _ _ => some 1767225600000

/-! ## Helper lemmas -/

@[simp] theorem lookupAL_insertAL_same {α : Type} (l : List (String × α))
    (k : String) (v : α) : lookupAL (insertAL l k v) k = some v := by
  induction l with
  | nil => simp [insertAL, lookupAL]
  | cons hd t ih =>
      obtain ⟨k0, w⟩ := hd
      by_cases h : k0 = k <;> simp [insertAL, lookupAL, h, ih]

@[simp] theorem lookupAL_insertAL_ne {α : Type} (l : List (String × α))
    (k k2 : String) (v : α) (h : k ≠ k2) :
    lookupAL (insertAL l k v) k2 = lookupAL l k2 := by
  induction l with
  | nil => simp [insertAL, lookupAL, h]
  | cons hd t ih =>
      obtain ⟨k0, w⟩ := hd
      by_cases h0 : k0 = k <;> simp [insertAL, lookupAL, h0, h, ih]

/-! ## Claim theorems -/

/-- C1: the survival tier function is total — it is a Lean function on all of
`Int` — and maps every integer credit balance to exactly one of the four
tiers according to the fixed thresholds: `> 50 → normal`,
`10 < c ≤ 50 → low_compute`, `0 < c ≤ 10 → critical`, `c ≤ 0 → dead`.
The four characterizations are mutually exclusive and exhaustive, so each
input lands in exactly one tier. -/
theorem getSurvivalTier_thresholds (c : Int) :
    (getSurvivalTier c = .normal ↔ 50 < c) ∧
    (getSurvivalTier c = .low_compute ↔ 10 < c ∧ c ≤ 50) ∧
    (getSurvivalTier c = .critical ↔ 0 < c ∧ c ≤ 10) ∧
    (getSurvivalTier c = .dead ↔ c ≤ 0) := by
  unfold getSurvivalTier SURVIVAL_THRESHOLDS
  split_ifs with h1 h2 h3 <;> simp_all <;> omega

/-- C5: a tick whose balance query fails behaves exactly as a tick whose
balance query returned 0 cents — it proceeds rather than aborting, and the
tier it computes for the tick is the most restrictive one, `dead`; in
particular no "previous tier" is consulted. -/
theorem tick_balance_failure_as_zero (run : String → Except String TaskResult)
    (cronNext : String → Int → Option Int) (now : Int)
    (entries : List HeartbeatEntry) (err : String) (s : DaemonState) :
    tick run cronNext now entries (Except.error err) s
      = tick run cronNext now entries (Except.ok 0) s ∧
    getSurvivalTier (tickCredits (Except.error err)) = .dead := by
  refine ⟨rfl, ?_⟩
  show getSurvivalTier 0 = SurvivalTier.dead
  decide

/-- C6 counterexample: `recordTransition` called with equal previous and new
tiers appends one entry — it is not a no-op, refuting the claim that zero
entries are appended when the tiers are equal. -/
theorem recordTransition_same_tier_appends_cex :
    recordTransition [] .normal .normal 100 "t0"
      = [{ fromTier := .normal, toTier := .normal, timestamp := "t0",
           creditsCents := 100 }] ∧
    (recordTransition [] .normal .normal 100 "t0").length = 1 := by
  exact ⟨rfl, rfl⟩

/-- C6 amended: `recordTransition` appends exactly one entry on every call,
whether or not the new tier differs from the previous one; the stored
history never exceeds 50 entries, and when the bound is hit the oldest
entries are evicted first (the result is a suffix of the appended list). -/
theorem recordTransition_appends_one_bounded (h : List ModeTransition)
    (f t : SurvivalTier) (c : Int) (ts : String) :
    (recordTransition h f t c ts).length = min (h.length + 1) 50 ∧
    recordTransition h f t c ts =
      (h ++ [({ fromTier := f, toTier := t, timestamp := ts,
                creditsCents := c } : ModeTransition)]).drop (h.length + 1 - 50) := by
  unfold recordTransition
  simp only [List.length_append, List.length_cons, List.length_nil, zero_add]
  split_ifs with hlen
  · refine ⟨?_, rfl⟩
    simp only [List.length_drop, List.length_append, List.length_cons,
      List.length_nil, zero_add]
    omega
  · have h0 : h.length + 1 - 50 = 0 := by omega
    rw [h0, List.drop_zero]
    refine ⟨?_, rfl⟩
    simp only [List.length_append, List.length_cons, List.length_nil, zero_add]
    omega

/-- C7 amended: an entry is due exactly when it is enabled, its schedule is
a non-empty string the cron library accepts, and the next fire time computed
from `lastRun` — or from 24 hours before now when it was never run — is at
or before now; a parse failure or a disabled flag makes the entry not due
rather than an error.  (An enabled never-run entry is therefore due
immediately exactly when its schedule's next fire after 24 hours ago has
already passed — true of any schedule firing at least daily, but not of
rarer schedules.) -/
theorem isDue_characterization (cronNext : String → Int → Option Int)
    (now : Int) (entry : HeartbeatEntry) :
    isDue cronNext now entry = true ↔
      entry.enabled = true ∧ entry.schedule ≠ "" ∧
      ∃ nextRun,
        cronNext entry.schedule (entry.lastRun.getD (now - 86400000)) = some nextRun ∧
        nextRun ≤ now := by
  unfold isDue
  cases hen : entry.enabled with
  | false => simp [hen]
  | true =>
      by_cases hs : entry.schedule = ""
      · simp [hs]
      · cases hcn : cronNext entry.schedule (entry.lastRun.getD (now - 86400000)) with
        | none => simp [hs, hcn]
        | some nr => simp [hs, hcn]

/-- C7 counterexample: an enabled entry whose schedule parses (the yearly
cron expression `0 0 1 1 *`) and whose `lastRun` is null is NOT due at
2025-06-15T17:46:40Z (epoch ms 1750000000000): the next fire computed from
24 hours earlier is 2026-01-01, which has not yet passed.  This refutes the
claim's "every enabled entry with a parsing schedule and lastRun = null is
due immediately". -/
theorem isDue_never_run_not_immediate_cex :
    (HeartbeatEntry.mk "yearly" "0 0 1 1 *" "heartbeat_ping" true none).enabled = true ∧
    yearlyCronNext "0 0 1 1 *" (1750000000000 - 86400000) = some 1767225600000 ∧
    isDue yearlyCronNext 1750000000000
      (HeartbeatEntry.mk "yearly" "0 0 1 1 *" "heartbeat_ping" true none) = false := by
  refine ⟨rfl, rfl, ?_⟩
  decide

/-- C10: `forceRun` dispatches on whether some stored entry carries the
requested name: when one does, the daemon state is transformed by exactly
one `executeTask` on that entry — with no enabled check, no due-check, no
essential-task filter, and no balance query (none of these are even inputs
of `forceRun`) — and when none does, `forceRun` returns the state unchanged
without error.  The last conjunct makes the enabled-flag bypass concrete:
a found entry whose task is registered and succeeds gets its last-run
column stamped whatever its `enabled` flag is. -/
theorem forceRun_dispatch (run : String → Except String TaskResult)
    (now : Int) (entries : List HeartbeatEntry) (taskName : String)
    (s : DaemonState) :
    (∀ entry, entries.find? (fun e => e.name == taskName) = some entry →
        forceRun run now entries taskName s = executeTask run now entry s) ∧
    (entries.find? (fun e => e.name == taskName) = none →
        forceRun run now entries taskName s = s) ∧
    (∀ entry r, entries.find? (fun e => e.name == taskName) = some entry →
        BUILTIN_TASK_NAMES.contains entry.task = true →
        run entry.task = Except.ok r →
        lookupAL (forceRun run now entries taskName s).lastRunMap entry.name
          = some now) := by
  refine ⟨?_, ?_, ?_⟩
  · intro entry hfind
    unfold forceRun
    rw [hfind]
  · intro hfind
    unfold forceRun
    rw [hfind]
  · intro entry r hfind hreg hok
    unfold forceRun
    rw [hfind]
    show lookupAL (executeTask run now entry s).lastRunMap entry.name = some now
    unfold executeTask
    rw [hok]
    simp only [hreg, Bool.not_true, Bool.false_eq_true, if_false]
    cases hw : r.shouldWake <;> simp [hw]

/-- C10 witness: concrete instances of all three branches of
`forceRun_dispatch`. -/
theorem forceRun_dispatch_witness :
    (forceRun (okRun { shouldWake := false, message := none }) 5
        [HeartbeatEntry.mk "hc" "* * * * *" "health_check" false none] "hc"
        (DaemonState.mk true 0 [] [] [])
      = executeTask (okRun { shouldWake := false, message := none }) 5
          (HeartbeatEntry.mk "hc" "* * * * *" "health_check" false none)
          (DaemonState.mk true 0 [] [] [])) ∧
    (forceRun (okRun { shouldWake := false, message := none }) 5
        [HeartbeatEntry.mk "hc" "* * * * *" "health_check" false none] "nope"
        (DaemonState.mk true 0 [] [] [])
      = DaemonState.mk true 0 [] [] []) ∧
    lookupAL (forceRun (okRun { shouldWake := false, message := none }) 5
        [HeartbeatEntry.mk "hc" "* * * * *" "health_check" false none] "hc"
        (DaemonState.mk true 0 [] [] [])).lastRunMap "hc" = some 5 := by
  refine ⟨?_, ?_, ?_⟩
  · exact (forceRun_dispatch _ 5 _ "hc" _).1 _ rfl
  · exact (forceRun_dispatch _ 5 _ "nope" _).2.1 rfl
  · exact (forceRun_dispatch _ 5 _ "hc" _).2.2
      (HeartbeatEntry.mk "hc" "* * * * *" "health_check" false none) _ rfl rfl rfl

/-- C8 counterexample: an attempted (throwing) run of an entry whose task
resolves to the registered `health_check` leaves the last-run column
untouched — `lastRun` is NOT mutated on a merely attempted run, refuting
the claim that it is mutated on every run. -/
theorem executeTask_attempted_run_lastRun_cex :
    BUILTIN_TASK_NAMES.contains "health_check" = true ∧
    (executeTask (failRun "boom") 1000
        (HeartbeatEntry.mk "hc" "* * * * *" "health_check" true none)
        (DaemonState.mk true 0 [] [] [])).lastRunMap = [] := by
  exact ⟨rfl, rfl⟩

/-- C8 amended: for an entry whose task resolves to a registered function,
the entry's last-run column is stamped with the current time on every
successful run, and is left unchanged when the task throws or rejects. -/
theorem executeTask_lastRun_success_only (entry : HeartbeatEntry)
    (s : DaemonState) (now : Int)
    (hreg : BUILTIN_TASK_NAMES.contains entry.task = true) :
    (∀ r, lookupAL (executeTask (okRun r) now entry s).lastRunMap entry.name
        = some now) ∧
    (∀ e, (executeTask (failRun e) now entry s).lastRunMap = s.lastRunMap) := by
  constructor
  · intro r
    unfold executeTask okRun
    simp only [hreg, Bool.not_true, Bool.false_eq_true, if_false]
    cases hw : r.shouldWake <;> simp [hw]
  · intro e
    unfold executeTask failRun
    simp only [hreg, Bool.not_true, Bool.false_eq_true, if_false]
    split <;> rfl

/-- C8 witness: the amended theorem applied to a concrete registered entry:
a successful run stamps the column, a throwing run leaves it empty. -/
theorem executeTask_lastRun_success_only_witness :
    lookupAL (executeTask (okRun { shouldWake := false, message := none }) 7
        (HeartbeatEntry.mk "ping" "* * * * *" "heartbeat_ping" true none)
        (DaemonState.mk true 0 [] [] [])).lastRunMap "ping" = some 7 ∧
    (executeTask (failRun "x") 7
        (HeartbeatEntry.mk "ping" "* * * * *" "heartbeat_ping" true none)
        (DaemonState.mk true 0 [] [] [])).lastRunMap = [] := by
  constructor
  · exact (executeTask_lastRun_success_only
      (HeartbeatEntry.mk "ping" "* * * * *" "heartbeat_ping" true none)
      (DaemonState.mk true 0 [] [] []) 7 rfl).1 _
  · exact (executeTask_lastRun_success_only
      (HeartbeatEntry.mk "ping" "* * * * *" "heartbeat_ping" true none)
      (DaemonState.mk true 0 [] [] []) 7 rfl).2 "x"

/-- C3: for an entry with a registered task and a fresh failure counter,
each throwing execution increments the counter without waking (counts 1 and
2); the third consecutive failure fires a wake whose message is built from
the task's name and the failure count, while the daemon keeps running; a
successful run resets the counter to zero; and a further single failure
after the success produces no additional wake. -/
theorem executeTask_task_failure_escalation (entry : HeartbeatEntry)
    (s : DaemonState) (now : Int) (e1 e2 e3 e4 : String) (r : TaskResult)
    (hreg : BUILTIN_TASK_NAMES.contains entry.task = true)
    (hc0 : lookupAL s.consecutiveTaskErrors entry.name = none)
    (hw : r.shouldWake = false) :
    (lookupAL (executeTask (failRun e1) now entry s).consecutiveTaskErrors entry.name
        = some 1 ∧
      (executeTask (failRun e1) now entry s).wakes = s.wakes) ∧
    (lookupAL (executeTask (failRun e2) now entry
          (executeTask (failRun e1) now entry s)).consecutiveTaskErrors entry.name
        = some 2 ∧
      (executeTask (failRun e2) now entry
          (executeTask (failRun e1) now entry s)).wakes = s.wakes) ∧
    ((executeTask (failRun e3) now entry (executeTask (failRun e2) now entry
          (executeTask (failRun e1) now entry s))).wakes
        = s.wakes ++ [taskFailureWakeMsg entry.name 3 e3] ∧
      (executeTask (failRun e3) now entry (executeTask (failRun e2) now entry
          (executeTask (failRun e1) now entry s))).running = s.running) ∧
    lookupAL (executeTask (okRun r) now entry
        (executeTask (failRun e3) now entry (executeTask (failRun e2) now entry
          (executeTask (failRun e1) now entry s)))).consecutiveTaskErrors entry.name
      = some 0 ∧
    (executeTask (failRun e4) now entry (executeTask (okRun r) now entry
        (executeTask (failRun e3) now entry (executeTask (failRun e2) now entry
          (executeTask (failRun e1) now entry s))))).wakes
      = s.wakes ++ [taskFailureWakeMsg entry.name 3 e3] ∧
    taskFailureWakeMsg entry.name 3 e3
      = "Heartbeat task '" ++ entry.name ++ "' has failed " ++ "3"
          ++ " consecutive times: " ++ e3 := by
  have hmem : entry.task ∈ BUILTIN_TASK_NAMES := by simpa using hreg
  simp [executeTask, failRun, okRun, hmem, hc0, hw, MAX_CONSECUTIVE_TASK_ERRORS,
    taskFailureWakeMsg]
  rfl

/-- C3 witness: the escalation scenario instantiated on a concrete entry and
daemon state — the wake fired at the third failure names the task. -/
theorem executeTask_task_failure_escalation_witness :
    (executeTask (failRun "err3") 9
        (HeartbeatEntry.mk "inbox" "* * * * *" "check_social_inbox" true none)
        (executeTask (failRun "err2") 9
          (HeartbeatEntry.mk "inbox" "* * * * *" "check_social_inbox" true none)
          (executeTask (failRun "err1") 9
            (HeartbeatEntry.mk "inbox" "* * * * *" "check_social_inbox" true none)
            (DaemonState.mk true 0 [] [] [])))).wakes
      = [taskFailureWakeMsg "inbox" 3 "err3"] :=
  ((executeTask_task_failure_escalation
    (HeartbeatEntry.mk "inbox" "* * * * *" "check_social_inbox" true none)
    (DaemonState.mk true 0 [] [] []) 9 "err1" "err2" "err3" "e4"
    { shouldWake := false, message := none } rfl rfl rfl).2.2.1).1

/-- C2: starting from a running daemon with a clean whole-tick failure
counter, five consecutive whole-tick failures (the tick body throwing while
mutating nothing) leave the daemon stopped — `running` is `false` — having
fired exactly one wake, whose reason states the daemon stopped after 5
consecutive tick failures; and any successful tick resets the whole-tick
failure counter to zero. -/
theorem safeTick_five_failures_stop (s : DaemonState) (m1 m2 m3 m4 m5 : String)
    (hrun : s.running = true) (hc : s.consecutiveTickErrors = 0) :
    (safeTick (failingTick m5) (safeTick (failingTick m4) (safeTick (failingTick m3)
        (safeTick (failingTick m2) (safeTick (failingTick m1) s))))).running
      = false ∧
    (safeTick (failingTick m5) (safeTick (failingTick m4) (safeTick (failingTick m3)
        (safeTick (failingTick m2) (safeTick (failingTick m1) s))))).wakes
      = s.wakes ++ [tickFailureWakeMsg 5 m5] ∧
    (∀ tickFn st, (tickFn st).2 = none →
        (safeTick tickFn st).consecutiveTickErrors = 0) := by
  refine ⟨?_, ?_, ?_⟩
  · simp [safeTick, failingTick, stop, MAX_CONSECUTIVE_TICK_ERRORS, hrun, hc]
  · simp [safeTick, failingTick, stop, MAX_CONSECUTIVE_TICK_ERRORS, hrun, hc]
  · intro tickFn st h
    unfold safeTick
    rcases htick : tickFn st with ⟨s1, err⟩
    cases err with
    | none => rfl
    | some m =>
        rw [htick] at h
        exact Option.noConfusion h

/-- C2 witness: five failing ticks on a concrete fresh daemon stop it with
the single daemon-stopped wake. -/
theorem safeTick_five_failures_stop_witness :
    (safeTick (failingTick "down") (safeTick (failingTick "down")
        (safeTick (failingTick "down") (safeTick (failingTick "down")
          (safeTick (failingTick "down") (DaemonState.mk true 0 [] [] [])))))).running
      = false ∧
    (safeTick (failingTick "down") (safeTick (failingTick "down")
        (safeTick (failingTick "down") (safeTick (failingTick "down")
          (safeTick (failingTick "down") (DaemonState.mk true 0 [] [] [])))))).wakes
      = [tickFailureWakeMsg 5 "down"] :=
  ⟨(safeTick_five_failures_stop (DaemonState.mk true 0 [] [] [])
      "down" "down" "down" "down" "down" rfl rfl).1,
   (safeTick_five_failures_stop (DaemonState.mk true 0 [] [] [])
      "down" "down" "down" "down" "down" rfl rfl).2.1⟩

theorem executeTask_preserves_other_name (run : String → Except String TaskResult)
    (now : Int) (e : HeartbeatEntry) (s : DaemonState) (n : String)
    (h : e.name ≠ n) :
    lookupAL (executeTask run now e s).consecutiveTaskErrors n
        = lookupAL s.consecutiveTaskErrors n ∧
    lookupAL (executeTask run now e s).lastRunMap n = lookupAL s.lastRunMap n := by
  unfold executeTask
  split
  · exact ⟨rfl, rfl⟩
  · split
    · rename_i result heq
      cases hw : result.shouldWake <;> simp [hw, h]
    · rename_i err heq
      by_cases hc : MAX_CONSECUTIVE_TASK_ERRORS ≤
          (lookupAL s.consecutiveTaskErrors e.name).getD 0 + 1 <;>
        simp [hc, h]

theorem tickStep_preserves_other_name (run : String → Except String TaskResult)
    (cronNext : String → Int → Option Int) (now : Int) (isLow : Bool)
    (acc : DaemonState) (e : HeartbeatEntry) (n : String) (h : e.name ≠ n) :
    lookupAL (tickStep run cronNext now isLow acc e).consecutiveTaskErrors n
        = lookupAL acc.consecutiveTaskErrors n ∧
    lookupAL (tickStep run cronNext now isLow acc e).lastRunMap n
        = lookupAL acc.lastRunMap n := by
  unfold tickStep
  split
  · exact ⟨rfl, rfl⟩
  · split
    · exact ⟨rfl, rfl⟩
    · split
      · exact executeTask_preserves_other_name run now e acc n h
      · exact ⟨rfl, rfl⟩

theorem tickFold_preserves_not_mem (run : String → Except String TaskResult)
    (cronNext : String → Int → Option Int) (now : Int) (isLow : Bool)
    (l : List HeartbeatEntry) (s : DaemonState) (n : String)
    (h : ∀ e ∈ l, e.name ≠ n) :
    lookupAL (l.foldl (tickStep run cronNext now isLow) s).consecutiveTaskErrors n
        = lookupAL s.consecutiveTaskErrors n ∧
    lookupAL (l.foldl (tickStep run cronNext now isLow) s).lastRunMap n
        = lookupAL s.lastRunMap n := by
  induction l generalizing s with
  | nil => exact ⟨rfl, rfl⟩
  | cons e t ih =>
      have he := tickStep_preserves_other_name run cronNext now isLow s e n
        (h e (by simp))
      have ht := ih (tickStep run cronNext now isLow s e)
        (fun x hx => h x (by simp [hx]))
      simp only [List.foldl_cons]
      exact ⟨ht.1.trans he.1, ht.2.trans he.2⟩

theorem survivalIsLowCompute_of_ne_normal (tier : SurvivalTier)
    (h : tier ≠ .normal) : survivalIsLowCompute tier = true := by
  cases tier with
  | normal => exact absurd rfl h
  | low_compute => rfl
  | critical => rfl
  | dead => rfl

theorem tickFold_low_skips_entry (run : String → Except String TaskResult)
    (cronNext : String → Int → Option Int) (now : Int)
    (l : List HeartbeatEntry) (entry : HeartbeatEntry)
    (hness : essentialTasks.contains entry.task = false) :
    ∀ s : DaemonState, entry ∈ l → (l.map HeartbeatEntry.name).Nodup →
    lookupAL (l.foldl (tickStep run cronNext now true) s).consecutiveTaskErrors entry.name
        = lookupAL s.consecutiveTaskErrors entry.name ∧
    lookupAL (l.foldl (tickStep run cronNext now true) s).lastRunMap entry.name
        = lookupAL s.lastRunMap entry.name := by
  induction l with
  | nil => intro s hmem _; cases hmem
  | cons e t ih =>
      intro s hmem hnodup
      have hnd : (∀ x ∈ t, x.name ≠ e.name) ∧
          (t.map HeartbeatEntry.name).Nodup := by
        simpa using hnodup
      simp only [List.foldl_cons]
      rcases List.mem_cons.mp hmem with heq | hmemt
      · subst heq
        have hness2 : entry.task ∉ essentialTasks := by simpa using hness
        have hskip : tickStep run cronNext now true s entry = s := by
          unfold tickStep
          cases hen : entry.enabled with
          | false => simp [hen]
          | true => simp [hen, hness2]
        rw [hskip]
        exact tickFold_preserves_not_mem run cronNext now true t s entry.name hnd.1
      · have hne : e.name ≠ entry.name := (hnd.1 entry hmemt).symm
        have hstep := tickStep_preserves_other_name run cronNext now true s e
          entry.name hne
        have ht := ih (tickStep run cronNext now true s e) hmemt hnd.2
        exact ⟨ht.1.trans hstep.1, ht.2.trans hstep.2⟩

/-- C4: in a tick whose computed tier is not `normal`, an enabled entry
whose task is outside the fixed essential allow-list is skipped: its
consecutive-failure counter and its last-run column are exactly what they
were before the tick — it is neither executed nor marked failed.  (Entry
names are unique keys in the store, hence the `Nodup` hypothesis.) -/
theorem tick_nonnormal_skips_nonessential (run : String → Except String TaskResult)
    (cronNext : String → Int → Option Int) (now : Int)
    (entries : List HeartbeatEntry) (balance : Except String Int)
    (s : DaemonState) (entry : HeartbeatEntry)
    (htier : getSurvivalTier (tickCredits balance) ≠ .normal)
    (hmem : entry ∈ entries)
    (hness : essentialTasks.contains entry.task = false)
    (hnodup : (entries.map HeartbeatEntry.name).Nodup) :
    lookupAL (tick run cronNext now entries balance s).consecutiveTaskErrors entry.name
        = lookupAL s.consecutiveTaskErrors entry.name ∧
    lookupAL (tick run cronNext now entries balance s).lastRunMap entry.name
        = lookupAL s.lastRunMap entry.name := by
  have hlow := survivalIsLowCompute_of_ne_normal _ htier
  show lookupAL (entries.foldl (tickStep run cronNext now
      (survivalIsLowCompute (getSurvivalTier (tickCredits balance)))) s).consecutiveTaskErrors
        entry.name
      = lookupAL s.consecutiveTaskErrors entry.name ∧
    lookupAL (entries.foldl (tickStep run cronNext now
      (survivalIsLowCompute (getSurvivalTier (tickCredits balance)))) s).lastRunMap entry.name
      = lookupAL s.lastRunMap entry.name
  rw [hlow]
  exact tickFold_low_skips_entry run cronNext now entries entry hness s hmem hnodup

/-- C4 witness: with a 5-cent balance (tier `critical`) the enabled,
non-essential `check_for_updates` entry is untouched by the tick. -/
theorem tick_nonnormal_skips_nonessential_witness :
    lookupAL (tick (okRun { shouldWake := false, message := none })
        (fun _ base => some base) 1000
        [HeartbeatEntry.mk "upd" "0 0 * * *" "check_for_updates" true none]
        (Except.ok 5) (DaemonState.mk true 0 [] [] [])).consecutiveTaskErrors "upd"
      = none ∧
    lookupAL (tick (okRun { shouldWake := false, message := none })
        (fun _ base => some base) 1000
        [HeartbeatEntry.mk "upd" "0 0 * * *" "check_for_updates" true none]
        (Except.ok 5) (DaemonState.mk true 0 [] [] [])).lastRunMap "upd"
      = none :=
  tick_nonnormal_skips_nonessential (okRun { shouldWake := false, message := none })
    (fun _ base => some base) 1000
    [HeartbeatEntry.mk "upd" "0 0 * * *" "check_for_updates" true none]
    (Except.ok 5) (DaemonState.mk true 0 [] [] [])
    (HeartbeatEntry.mk "upd" "0 0 * * *" "check_for_updates" true none)
    (by decide) (by simp) (by decide) (by simp)

/-- C9: the `check_credits` task is edge-triggered.  First conjunct: of two
consecutive credit checks computing the same tier, the second never requests
a wake — whatever that tier is, `critical` and `dead` included — because the
first check recorded the tier under `prev_credit_tier`.  Second conjunct: a
wake is requested only when a previous tier was recorded, it differs from
the newly computed tier, and the new tier is `critical` or `dead`. -/
theorem check_credits_edge_triggered (c1 c2 : Int) (ts1 ts2 : String)
    (kv : List (String × String))
    (hsame : getSurvivalTier c1 = getSurvivalTier c2) :
    (check_credits c2 ts2 (check_credits c1 ts1 kv).1).2.shouldWake = false ∧
    (∀ c : Int, ∀ ts : String, ∀ kv0 : List (String × String),
      (check_credits c ts kv0).2.shouldWake = true →
        (∃ p, lookupAL kv0 "prev_credit_tier" = some p
            ∧ p ≠ tierName (getSurvivalTier c)) ∧
        (getSurvivalTier c = .critical ∨ getSurvivalTier c = .dead)) := by
  have hne : ("last_credit_check" : String) ≠ "prev_credit_tier" := by decide
  constructor
  · simp [check_credits, hne, hsame]
  · intro c ts kv0 hwake
    simp only [check_credits] at hwake
    split at hwake
    · rename_i hcond
      rw [lookupAL_insertAL_ne _ _ _ _ hne, Bool.and_eq_true] at hcond
      obtain ⟨hprev, htier⟩ := hcond
      constructor
      · rcases hp : lookupAL kv0 "prev_credit_tier" with _ | p
        · rw [hp] at hprev
          cases hprev
        · rw [hp] at hprev
          rw [Bool.and_eq_true] at hprev
          refine ⟨p, rfl, ?_⟩
          have h2 := hprev.2
          simpa using h2
      · simpa [beq_iff_eq] using htier
    · cases hwake

/-- C9 witness: with a 5-cent balance (tier `critical`) in both checks, the
second check does not re-wake. -/
theorem check_credits_edge_triggered_witness :
    (check_credits 5 "t2" (check_credits 5 "t1" []).1).2.shouldWake = false :=
  (check_credits_edge_triggered 5 5 "t1" "t2" [] rfl).1

end SolAgent
